import Mathlib

/-!
Verification of the lime-soda softening engine (`calculateSoftening`).

The engine is a pure function from a raw-water sample to a softening
outcome.  All intermediate chemical balances are carried in mg/L as
CaCO3 equivalent.  The embedding below mirrors the source line by line:
each `let`-bound intermediate of the source becomes a top-level
definition with the source's name, and `calculateSoftening` assembles
the output record exactly as the source does.  Real-number arithmetic
stands in for the source's floating-point arithmetic; `Real.logb 10`
stands in for `Math.log10` and real exponentiation `(10 : ℝ) ^ x` for
`Math.pow(10, x)`.
-/

namespace Softening

/-- The input record (`WaterQualityData` in the source). -/
structure WaterQualityData where
  ph : ℝ
  calcium : ℝ
  magnesium : ℝ
  alkalinity : ℝ
  conductivity : ℝ
  sulphate : ℝ
  temperature : ℝ
  targetCa : ℝ
  targetMg : ℝ

/-- The output record (`SofteningResults` in the source). -/
structure SofteningResults where
  limeDose : ℝ
  sodaAshDose : ℝ
  softenedPh : ℝ
  softenedCa : ℝ
  softenedMg : ℝ
  softenedHardness : ℝ
  softenedAlkalinity : ℝ
  sludgeProduced : ℝ
  lsi : ℝ
  ccpp : ℝ
  initialHardness : ℝ

/-- Conversion factor, mg/L Ca to mg/L as CaCO3. -/
def CA_TO_CACO3 : ℝ := 2.497

/-- Conversion factor, mg/L Mg to mg/L as CaCO3. -/
def MG_TO_CACO3 : ℝ := 4.118

/-- Molecular weight of CaCO3. -/
def CACO3_MW : ℝ := 100.08

/-- Molecular weight of Ca(OH)2. -/
def CAOH2_MW : ℝ := 74.09

/-- Molecular weight of Na2CO3. -/
def NA2CO3_MW : ℝ := 105.99

/-- Raw calcium in mg/L as CaCO3: `data.calcium * CA_TO_CACO3`. -/
def rawCa (d : WaterQualityData) : ℝ := d.calcium * CA_TO_CACO3

/-- Raw magnesium in mg/L as CaCO3: `data.magnesium * MG_TO_CACO3`. -/
def rawMg (d : WaterQualityData) : ℝ := d.magnesium * MG_TO_CACO3

/-- Raw hardness: `rawCa + rawMg`. -/
def rawHardness (d : WaterQualityData) : ℝ := rawCa d + rawMg d

/-- Dissolved CO2 as CaCO3: `rawAlk * 10 ^ (6.35 - ph)`. -/
noncomputable def co2_as_CaCO3 (d : WaterQualityData) : ℝ :=
  d.alkalinity * (10 : ℝ) ^ ((6.35 : ℝ) - d.ph)

/-- Carbonate hardness: `min(rawHardness, rawAlk)`. -/
def carbonateHardness (d : WaterQualityData) : ℝ :=
  min (rawHardness d) d.alkalinity

/-- Calcium carbonate hardness: `min(rawCa, carbonateHardness)`. -/
def caCH (d : WaterQualityData) : ℝ := min (rawCa d) (carbonateHardness d)

/-- Magnesium carbonate hardness: `max(0, carbonateHardness - caCH)`. -/
def mgCH (d : WaterQualityData) : ℝ := max 0 (carbonateHardness d - caCH d)

/-- Calcium to remove: `max(0, rawCa - targetCa)`. -/
def caToRemove (d : WaterQualityData) : ℝ := max 0 (rawCa d - d.targetCa)

/-- Magnesium to remove: `max(0, rawMg - targetMg)`. -/
def mgToRemove (d : WaterQualityData) : ℝ := max 0 (rawMg d - d.targetMg)

/-- Non-carbonate magnesium: `max(0, rawMg - mgCH)`. -/
def mgNCH (d : WaterQualityData) : ℝ := max 0 (rawMg d - mgCH d)

/-- Non-carbonate magnesium to remove:
`max(0, mgNCH - (targetMg - max(0, mgCH - mgToRemove)))`. -/
def mgNCHToRemove (d : WaterQualityData) : ℝ :=
  max 0 (mgNCH d - (d.targetMg - max 0 (mgCH d - mgToRemove d)))

/-- Excess lime for high pH: `targetMg < 40 ? 30 : 0`. -/
noncomputable def excessLime (d : WaterQualityData) : ℝ :=
  if d.targetMg < 40 then 30 else 0

/-- Total lime demand in mg/L as CaCO3, the sum of the source's
successive additions to `limeDemand_CaCO3`. -/
noncomputable def limeDemand_CaCO3 (d : WaterQualityData) : ℝ :=
  co2_as_CaCO3 d + caCH d + 2 * mgCH d + mgNCHToRemove d + excessLime d

/-- Lime dose in mg/L as Ca(OH)2: `(limeDemand_CaCO3 / CACO3_MW) * CAOH2_MW`. -/
noncomputable def limeDose (d : WaterQualityData) : ℝ :=
  limeDemand_CaCO3 d / CACO3_MW * CAOH2_MW

/-- Raw non-carbonate hardness: `max(0, rawHardness - rawAlk)` (computed
by the source but not used downstream). -/
def rawNCH (d : WaterQualityData) : ℝ := max 0 (rawHardness d - d.alkalinity)

/-- Soda ash demand in mg/L as CaCO3:
`max(0, (rawHardness - targetCa - targetMg) - rawAlk)`. -/
def sodaAshDemand_CaCO3 (d : WaterQualityData) : ℝ :=
  max 0 (rawHardness d - d.targetCa - d.targetMg - d.alkalinity)

/-- Soda ash dose in mg/L as Na2CO3: `(sodaAshDemand_CaCO3 / CACO3_MW) * NA2CO3_MW`. -/
noncomputable def sodaAshDose (d : WaterQualityData) : ℝ :=
  sodaAshDemand_CaCO3 d / CACO3_MW * NA2CO3_MW

/-- Finished calcium: the target, verbatim. -/
def softenedCa (d : WaterQualityData) : ℝ := d.targetCa

/-- Finished magnesium: the target, verbatim. -/
def softenedMg (d : WaterQualityData) : ℝ := d.targetMg

/-- Finished hardness: `softenedCa + softenedMg`. -/
def softenedHardness (d : WaterQualityData) : ℝ := softenedCa d + softenedMg d

/-- Finished alkalinity:
`max(20, rawAlk + sodaAshDemand_CaCO3 - (rawHardness - softenedHardness))`. -/
def softenedAlk (d : WaterQualityData) : ℝ :=
  max 20 (d.alkalinity + sodaAshDemand_CaCO3 d - (rawHardness d - softenedHardness d))

/-- Finished pH: `targetMg < 40 ? 10.6 : 9.8`. -/
noncomputable def softenedPh (d : WaterQualityData) : ℝ :=
  if d.targetMg < 40 then 10.6 else 9.8

/-- Calcium sludge: `rawCa - softenedCa` (not clamped in the source). -/
def sludgeCa (d : WaterQualityData) : ℝ := rawCa d - softenedCa d

/-- Magnesium sludge: `(rawMg - softenedMg) * (58.3 / 100.08)`. -/
noncomputable def sludgeMg (d : WaterQualityData) : ℝ :=
  (rawMg d - softenedMg d) * (58.3 / 100.08)

/-- Total sludge production: `sludgeCa + sludgeMg`. -/
noncomputable def sludgeProduced (d : WaterQualityData) : ℝ := sludgeCa d + sludgeMg d

/-- Total dissolved solids estimate: `conductivity * 0.65`. -/
def TDS (d : WaterQualityData) : ℝ := d.conductivity * 0.65

/-- Langelier term A: `(log10(TDS) - 1) / 10`. -/
noncomputable def lsiA (d : WaterQualityData) : ℝ :=
  (Real.logb 10 (TDS d) - 1) / 10

/-- Langelier term B: `-13.12 * log10(tempK) + 34.55` with `tempK = temperature + 273.15`. -/
noncomputable def lsiB (d : WaterQualityData) : ℝ :=
  -13.12 * Real.logb 10 (d.temperature + 273.15) + 34.55

/-- Langelier term C: `log10(softenedCa) - 0.4`. -/
noncomputable def lsiC (d : WaterQualityData) : ℝ :=
  Real.logb 10 (softenedCa d) - 0.4

/-- Langelier term D: `log10(softenedAlk)`. -/
noncomputable def lsiD (d : WaterQualityData) : ℝ :=
  Real.logb 10 (softenedAlk d)

/-- Saturation pH: `(9.3 + A + B) - (C + D)`. -/
noncomputable def phs (d : WaterQualityData) : ℝ :=
  9.3 + lsiA d + lsiB d - (lsiC d + lsiD d)

/-- Langelier saturation index: `softenedPh - phs`. -/
noncomputable def lsi (d : WaterQualityData) : ℝ := softenedPh d - phs d

/-- CCPP: `lsi > 0 ? softenedAlk * (1 - 10 ^ (-lsi)) : 0`. -/
noncomputable def ccpp (d : WaterQualityData) : ℝ :=
  if 0 < lsi d then softenedAlk d * (1 - (10 : ℝ) ^ (-lsi d)) else 0

/-- The full engine: assembles the output record exactly as the source's
return statement does. -/
noncomputable def calculateSoftening (d : WaterQualityData) : SofteningResults :=
  { limeDose := limeDose d
    sodaAshDose := sodaAshDose d
    softenedPh := softenedPh d
    softenedCa := softenedCa d
    softenedMg := softenedMg d
    softenedHardness := softenedHardness d
    softenedAlkalinity := softenedAlk d
    sludgeProduced := sludgeProduced d
    lsi := lsi d
    ccpp := ccpp d
    initialHardness := rawHardness d }

/-- The default sample of the application (the end-to-end scenario):
ph 7.8, calcium 80, magnesium 25, alkalinity 220, conductivity 650,
sulphate 45, temperature 20, targetCa 40, targetMg 10. -/
def sample : WaterQualityData :=
  ⟨7.8, 80, 25, 220, 650, 45, 20, 40, 10⟩

/-- Key reduction: a real power of 10 with exponent `y` raised to a
natural power `n` with `n * y` an integer `m` is the integer power `10 ^ m`. -/
lemma ten_pow_key (y : ℝ) (n : ℕ) (m : ℤ) (hm : (n : ℝ) * y = (m : ℝ)) :
    ((10 : ℝ) ^ y) ^ n = (10 : ℝ) ^ m := by
  rw [← Real.rpow_natCast ((10 : ℝ) ^ y) n, ← Real.rpow_mul (by norm_num : (0 : ℝ) ≤ 10),
    mul_comm, hm, Real.rpow_intCast]

/-- Lower bound on a real power of 10 via an integer power comparison. -/
lemma lt_ten_rpow (c y : ℝ) (n : ℕ) (m : ℤ) (hc : 0 ≤ c)
    (hm : (n : ℝ) * y = (m : ℝ)) (h : c ^ n < (10 : ℝ) ^ m) : c < (10 : ℝ) ^ y :=
  lt_of_pow_lt_pow_left₀ n (Real.rpow_pos_of_pos (by norm_num) y).le
    (by rw [ten_pow_key y n m hm]; exact h)

/-- Upper bound on a real power of 10 via an integer power comparison. -/
lemma ten_rpow_lt (c y : ℝ) (n : ℕ) (m : ℤ) (hc : 0 ≤ c)
    (hm : (n : ℝ) * y = (m : ℝ)) (h : (10 : ℝ) ^ m < c ^ n) : (10 : ℝ) ^ y < c :=
  lt_of_pow_lt_pow_left₀ n hc (by rw [ten_pow_key y n m hm]; exact h)

/-- Lower bound on a base-10 logarithm via a real power of 10. -/
lemma lt_logb_ten (c v : ℝ) (hv : 0 < v) (h : (10 : ℝ) ^ c < v) :
    c < Real.logb 10 v :=
  (Real.lt_logb_iff_rpow_lt (by norm_num) hv).mpr h

/-- Upper bound on a base-10 logarithm via a real power of 10. -/
lemma logb_ten_lt (c v : ℝ) (hv : 0 < v) (h : v < (10 : ℝ) ^ c) :
    Real.logb 10 v < c :=
  (Real.logb_lt_iff_lt_rpow (by norm_num) hv).mpr h

/-- `10 ^ (-1.45)` lies strictly between `0.0354` and `0.0356`. -/
lemma rpow_neg_145_bounds :
    (0.0354 : ℝ) < (10 : ℝ) ^ (-1.45 : ℝ) ∧ (10 : ℝ) ^ (-1.45 : ℝ) < 0.0356 :=
  ⟨lt_ten_rpow 0.0354 (-1.45) 20 (-29) (by norm_num) (by norm_num) (by norm_num),
   ten_rpow_lt 0.0356 (-1.45) 20 (-29) (by norm_num) (by norm_num) (by norm_num)⟩

/-- `10 ^ (-1.47)` is strictly above `0.0338`. -/
lemma rpow_neg_147_lb : (0.0338 : ℝ) < (10 : ℝ) ^ (-1.47 : ℝ) :=
  lt_ten_rpow 0.0338 (-1.47) 100 (-147) (by norm_num) (by norm_num) (by norm_num)

/-- `log10 422.5` lies strictly between `2.62` and `2.63`. -/
lemma logb_4225_bounds :
    (2.62 : ℝ) < Real.logb 10 422.5 ∧ Real.logb 10 422.5 < 2.63 :=
  ⟨lt_logb_ten 2.62 422.5 (by norm_num)
      (ten_rpow_lt 422.5 2.62 50 131 (by norm_num) (by norm_num) (by norm_num)),
   logb_ten_lt 2.63 422.5 (by norm_num)
      (lt_ten_rpow 422.5 2.63 100 263 (by norm_num) (by norm_num) (by norm_num))⟩

/-- `log10 293.15` lies strictly between `2.4668` and `2.4672`. -/
lemma logb_29315_bounds :
    (2.4668 : ℝ) < Real.logb 10 293.15 ∧ Real.logb 10 293.15 < 2.4672 :=
  ⟨lt_logb_ten 2.4668 293.15 (by norm_num)
      (ten_rpow_lt 293.15 2.4668 2500 6167 (by norm_num) (by norm_num) (by norm_num)),
   logb_ten_lt 2.4672 293.15 (by norm_num)
      (lt_ten_rpow 293.15 2.4672 2500 6168 (by norm_num) (by norm_num) (by norm_num))⟩

/-- `log10 40` lies strictly between `1.60` and `1.605`. -/
lemma logb_40_bounds :
    (1.60 : ℝ) < Real.logb 10 40 ∧ Real.logb 10 40 < 1.605 :=
  ⟨lt_logb_ten 1.60 40 (by norm_num)
      (ten_rpow_lt 40 1.60 5 8 (by norm_num) (by norm_num) (by norm_num)),
   logb_ten_lt 1.605 40 (by norm_num)
      (lt_ten_rpow 40 1.605 200 321 (by norm_num) (by norm_num) (by norm_num))⟩

/-- `log10 20` lies strictly between `1.30` and `1.302`. -/
lemma logb_20_bounds :
    (1.30 : ℝ) < Real.logb 10 20 ∧ Real.logb 10 20 < 1.302 :=
  ⟨lt_logb_ten 1.30 20 (by norm_num)
      (ten_rpow_lt 20 1.30 10 13 (by norm_num) (by norm_num) (by norm_num)),
   logb_ten_lt 1.302 20 (by norm_num)
      (lt_ten_rpow 20 1.302 500 651 (by norm_num) (by norm_num) (by norm_num))⟩

lemma sample_rawCa : rawCa sample = 199.76 := by
  norm_num [rawCa, CA_TO_CACO3, sample]

lemma sample_rawMg : rawMg sample = 102.95 := by
  norm_num [rawMg, MG_TO_CACO3, sample]

lemma sample_rawHardness : rawHardness sample = 302.71 := by
  rw [rawHardness, sample_rawCa, sample_rawMg]; norm_num

lemma sample_carbonateHardness : carbonateHardness sample = 220 := by
  rw [carbonateHardness, sample_rawHardness]
  show min (302.71 : ℝ) 220 = 220
  exact min_eq_right (by norm_num)

lemma sample_caCH : caCH sample = 199.76 := by
  rw [caCH, sample_rawCa, sample_carbonateHardness]
  exact min_eq_left (by norm_num)

lemma sample_mgCH : mgCH sample = 20.24 := by
  rw [mgCH, sample_carbonateHardness, sample_caCH,
    max_eq_right (by norm_num : (0 : ℝ) ≤ 220 - 199.76)]
  norm_num

lemma sample_mgToRemove : mgToRemove sample = 92.95 := by
  rw [mgToRemove, sample_rawMg]
  show max 0 (102.95 - (10 : ℝ)) = 92.95
  rw [max_eq_right (by norm_num : (0 : ℝ) ≤ 102.95 - 10)]
  norm_num

lemma sample_mgNCH : mgNCH sample = 82.71 := by
  rw [mgNCH, sample_rawMg, sample_mgCH,
    max_eq_right (by norm_num : (0 : ℝ) ≤ 102.95 - 20.24)]
  norm_num

lemma sample_mgNCHToRemove : mgNCHToRemove sample = 72.71 := by
  rw [mgNCHToRemove, sample_mgNCH, sample_mgCH, sample_mgToRemove]
  show max 0 (82.71 - ((10 : ℝ) - max 0 (20.24 - 92.95))) = 72.71
  rw [max_eq_left (by norm_num : (20.24 : ℝ) - 92.95 ≤ 0)]
  rw [max_eq_right (by norm_num : (0 : ℝ) ≤ 82.71 - (10 - 0))]
  norm_num

lemma sample_excessLime : excessLime sample = 30 := by
  have h : sample.targetMg < 40 := by show (10 : ℝ) < 40; norm_num
  simp only [excessLime, if_pos h]

lemma sample_co2 : co2_as_CaCO3 sample = 220 * (10 : ℝ) ^ (-1.45 : ℝ) := by
  rw [co2_as_CaCO3]
  norm_num [sample]

lemma sample_co2_bounds :
    7.788 < co2_as_CaCO3 sample ∧ co2_as_CaCO3 sample < 7.832 := by
  rw [sample_co2]
  exact ⟨by nlinarith [rpow_neg_145_bounds.1], by nlinarith [rpow_neg_145_bounds.2]⟩

lemma sample_limeDemand :
    limeDemand_CaCO3 sample = co2_as_CaCO3 sample + 342.95 := by
  rw [limeDemand_CaCO3, sample_caCH, sample_mgCH, sample_mgNCHToRemove,
    sample_excessLime]
  ring

lemma sample_limeDose_close : |limeDose sample - 259.7| ≤ 0.5 := by
  have h := sample_co2_bounds
  rw [limeDose, sample_limeDemand, CACO3_MW, CAOH2_MW, abs_le]
  have h3 : (co2_as_CaCO3 sample + 342.95) / 100.08 * 74.09 =
      co2_as_CaCO3 sample * (74.09 / 100.08) + 342.95 * 74.09 / 100.08 := by
    ring
  rw [h3]
  constructor <;> linarith [h.1, h.2]

lemma sample_sodaAshDemand : sodaAshDemand_CaCO3 sample = 32.71 := by
  rw [sodaAshDemand_CaCO3, sample_rawHardness]
  show max 0 ((302.71 : ℝ) - 40 - 10 - 220) = 32.71
  rw [max_eq_right (by norm_num : (0 : ℝ) ≤ 302.71 - 40 - 10 - 220)]
  norm_num

lemma sample_sodaAshDose_close : |sodaAshDose sample - 34.6| ≤ 0.5 := by
  rw [sodaAshDose, sample_sodaAshDemand, CACO3_MW, NA2CO3_MW, abs_le]
  constructor <;> norm_num

lemma sample_softenedAlk : softenedAlk sample = 20 := by
  rw [softenedAlk, sample_sodaAshDemand, sample_rawHardness, max_eq_left]
  norm_num [softenedHardness, softenedCa, softenedMg, sample]

lemma sample_softenedPh : softenedPh sample = 10.6 := by
  have h : sample.targetMg < 40 := by show (10 : ℝ) < 40; norm_num
  simp only [softenedPh, if_pos h]

lemma sample_sludge_close : |sludgeProduced sample - 213.9| ≤ 0.5 := by
  rw [sludgeProduced, sludgeCa, sludgeMg, sample_rawCa, sample_rawMg, abs_le]
  norm_num [softenedCa, softenedMg, sample]

lemma sample_TDS : TDS sample = 422.5 := by
  norm_num [TDS, sample]

lemma sample_lsi_bounds : 1.45 ≤ lsi sample ∧ lsi sample ≤ 1.47 := by
  have hA : lsiA sample = (Real.logb 10 422.5 - 1) / 10 := by
    rw [lsiA, sample_TDS]
  have hB : lsiB sample = -13.12 * Real.logb 10 293.15 + 34.55 := by
    rw [lsiB]; norm_num [sample]
  have hC : lsiC sample = Real.logb 10 40 - 0.4 := by
    rw [lsiC]; norm_num [softenedCa, sample]
  have hD : lsiD sample = Real.logb 10 20 := by
    rw [lsiD, sample_softenedAlk]
  have h1 := logb_4225_bounds
  have h2 := logb_29315_bounds
  have h3 := logb_40_bounds
  have h4 := logb_20_bounds
  rw [lsi, phs, hA, hB, hC, hD, sample_softenedPh]
  constructor <;> linarith [h1.1, h1.2, h2.1, h2.2, h3.1, h3.2, h4.1, h4.2]

lemma sample_lsi_pos : 0 < lsi sample :=
  lt_of_lt_of_le (by norm_num) sample_lsi_bounds.1

lemma sample_ccpp_close : |ccpp sample - 19.3| ≤ 0.1 := by
  have hb := sample_lsi_bounds
  have hub : (10 : ℝ) ^ (-lsi sample) < 0.0356 :=
    lt_of_le_of_lt
      ((Real.rpow_le_rpow_left_iff (by norm_num : (1 : ℝ) < 10)).mpr
        (by linarith [hb.1] : -lsi sample ≤ (-1.45 : ℝ)))
      rpow_neg_145_bounds.2
  have hlb : (0.0338 : ℝ) < (10 : ℝ) ^ (-lsi sample) :=
    lt_of_lt_of_le rpow_neg_147_lb
      ((Real.rpow_le_rpow_left_iff (by norm_num : (1 : ℝ) < 10)).mpr
        (by linarith [hb.2] : (-1.47 : ℝ) ≤ -lsi sample))
  rw [ccpp, if_pos sample_lsi_pos, sample_softenedAlk, abs_le]
  constructor <;> nlinarith [hub, hlb]

/-- C2: the end-to-end scenario on the default sample: limeDose within
0.5 of 259.7, sodaAshDose within 0.5 of 34.6, finishedPh 10.6,
finishedCalcium 40, finishedMagnesium 10, finishedHardness 50,
finishedAlkalinity 20, sludge within 0.5 of 213.9, initialHardness
within 0.05 of 302.7, LSI within 0.05 of 1.47 and CCPP within 0.1 of
19.3. -/
theorem C2_end_to_end :
    |(calculateSoftening sample).limeDose - 259.7| ≤ 0.5 ∧
    |(calculateSoftening sample).sodaAshDose - 34.6| ≤ 0.5 ∧
    (calculateSoftening sample).softenedPh = 10.6 ∧
    (calculateSoftening sample).softenedCa = 40 ∧
    (calculateSoftening sample).softenedMg = 10 ∧
    (calculateSoftening sample).softenedHardness = 50 ∧
    (calculateSoftening sample).softenedAlkalinity = 20 ∧
    |(calculateSoftening sample).sludgeProduced - 213.9| ≤ 0.5 ∧
    |(calculateSoftening sample).initialHardness - 302.7| ≤ 0.05 ∧
    |(calculateSoftening sample).lsi - 1.47| ≤ 0.05 ∧
    |(calculateSoftening sample).ccpp - 19.3| ≤ 0.1 := by
  refine ⟨sample_limeDose_close, sample_sodaAshDose_close, sample_softenedPh,
    rfl, rfl, ?_, sample_softenedAlk, sample_sludge_close, ?_, ?_,
    sample_ccpp_close⟩
  · norm_num [calculateSoftening, softenedHardness, softenedCa, softenedMg, sample]
  · show |rawHardness sample - 302.7| ≤ 0.05
    rw [sample_rawHardness, abs_le]
    constructor <;> norm_num
  · have hb := sample_lsi_bounds
    show |lsi sample - 1.47| ≤ 0.05
    rw [abs_le]
    exact ⟨by linarith [hb.1], by linarith [hb.2]⟩

/-- C1: finished calcium and magnesium equal the targets exactly, and
finished hardness is their sum. -/
theorem C1_finished_equals_targets (d : WaterQualityData) :
    (calculateSoftening d).softenedCa = d.targetCa ∧
    (calculateSoftening d).softenedMg = d.targetMg ∧
    (calculateSoftening d).softenedHardness = d.targetCa + d.targetMg :=
  ⟨rfl, rfl, rfl⟩

/-- C5: finished alkalinity equals
`max(20, rawAlk + sodaAshDemand - (rawHardness - finishedHardness))`,
hence is always at least 20. -/
theorem C5_finished_alkalinity_formula (d : WaterQualityData) :
    (calculateSoftening d).softenedAlkalinity =
      max 20 (d.alkalinity + sodaAshDemand_CaCO3 d -
        (rawHardness d - (calculateSoftening d).softenedHardness)) ∧
    20 ≤ (calculateSoftening d).softenedAlkalinity :=
  ⟨rfl, le_max_left _ _⟩

/-- C9: the sulphate field never influences the result: overwriting it
with any value leaves every output field unchanged. -/
theorem C9_sulphate_noninterference (d : WaterQualityData) (s : ℝ) :
    calculateSoftening { d with sulphate := s } = calculateSoftening d :=
  rfl

/-- C10: with no precondition at all, finished alkalinity is at least 20
and in particular strictly positive, so the `log10` of the stability
stage applied to finished alkalinity always receives a positive
argument. -/
theorem C10_alkalinity_always_positive (d : WaterQualityData) :
    20 ≤ (calculateSoftening d).softenedAlkalinity ∧
    0 < (calculateSoftening d).softenedAlkalinity :=
  ⟨le_max_left _ _, lt_of_lt_of_le (by norm_num) (le_max_left _ _)⟩

/-- The default sample with the magnesium target moved to 39.9, just
below the policy threshold. -/
def sampleMg399 : WaterQualityData := { sample with targetMg := 39.9 }

/-- The default sample with the magnesium target moved to 40, on the
policy threshold. -/
def sampleMg40 : WaterQualityData := { sample with targetMg := 40 }

lemma s399_mgToRemove : mgToRemove sampleMg399 = 63.05 := by
  rw [mgToRemove]
  have h : rawMg sampleMg399 = 102.95 := sample_rawMg
  rw [h]
  show max 0 (102.95 - (39.9 : ℝ)) = 63.05
  rw [max_eq_right (by norm_num : (0 : ℝ) ≤ 102.95 - 39.9)]
  norm_num

lemma s399_mgNCHToRemove : mgNCHToRemove sampleMg399 = 42.81 := by
  rw [mgNCHToRemove]
  have h1 : mgNCH sampleMg399 = 82.71 := sample_mgNCH
  have h2 : mgCH sampleMg399 = 20.24 := sample_mgCH
  rw [h1, h2, s399_mgToRemove]
  show max 0 (82.71 - ((39.9 : ℝ) - max 0 (20.24 - 63.05))) = 42.81
  rw [max_eq_left (by norm_num : (20.24 : ℝ) - 63.05 ≤ 0)]
  rw [max_eq_right (by norm_num : (0 : ℝ) ≤ 82.71 - (39.9 - 0))]
  norm_num

lemma s40_mgToRemove : mgToRemove sampleMg40 = 62.95 := by
  rw [mgToRemove]
  have h : rawMg sampleMg40 = 102.95 := sample_rawMg
  rw [h]
  show max 0 (102.95 - (40 : ℝ)) = 62.95
  rw [max_eq_right (by norm_num : (0 : ℝ) ≤ 102.95 - 40)]
  norm_num

lemma s40_mgNCHToRemove : mgNCHToRemove sampleMg40 = 42.71 := by
  rw [mgNCHToRemove]
  have h1 : mgNCH sampleMg40 = 82.71 := sample_mgNCH
  have h2 : mgCH sampleMg40 = 20.24 := sample_mgCH
  rw [h1, h2, s40_mgToRemove]
  show max 0 (82.71 - ((40 : ℝ) - max 0 (20.24 - 62.95))) = 42.71
  rw [max_eq_left (by norm_num : (20.24 : ℝ) - 62.95 ≤ 0)]
  rw [max_eq_right (by norm_num : (0 : ℝ) ≤ 82.71 - (40 - 0))]
  norm_num

/-- C3 counterexample: on the default inputs, moving the magnesium
target from 39.9 to 40 changes the CaCO3-equivalent lime demand by
30.1, not by exactly 30: the non-carbonate-magnesium removal term also
depends on the target and shifts by 0.1 across the spec's own example
boundary. -/
theorem C3_counterexample :
    limeDemand_CaCO3 sampleMg399 - limeDemand_CaCO3 sampleMg40 = 30.1 ∧
    (30.1 : ℝ) ≠ 30 := by
  constructor
  · have e1 : co2_as_CaCO3 sampleMg399 = co2_as_CaCO3 sampleMg40 := rfl
    have e2 : caCH sampleMg399 = caCH sampleMg40 := rfl
    have e3 : mgCH sampleMg399 = mgCH sampleMg40 := rfl
    have e4 : excessLime sampleMg399 = 30 := by
      have h : sampleMg399.targetMg < 40 := by show (39.9 : ℝ) < 40; norm_num
      simp only [excessLime, if_pos h]
    have e5 : excessLime sampleMg40 = 0 := by
      have h : ¬sampleMg40.targetMg < 40 := by show ¬(40 : ℝ) < 40; norm_num
      simp only [excessLime, if_neg h]
    rw [limeDemand_CaCO3, limeDemand_CaCO3, e1, e2, e3, e4, e5,
      s399_mgNCHToRemove, s40_mgNCHToRemove]
    ring
  · norm_num

/-- C3 (amended): crossing the magnesium target from below 40 to
40-or-above flips the finished pH from 10.6 to 9.8 and removes exactly
30 from the excess-lime policy term of the lime demand; the total
change of the lime demand is that 30 plus whatever the
non-carbonate-magnesium removal term changes by, which need not be
zero. -/
theorem C3_threshold_amended (d : WaterQualityData) (t1 t2 : ℝ)
    (h1 : t1 < 40) (h2 : 40 ≤ t2) :
    (calculateSoftening { d with targetMg := t1 }).softenedPh = 10.6 ∧
    (calculateSoftening { d with targetMg := t2 }).softenedPh = 9.8 ∧
    excessLime { d with targetMg := t1 } = 30 ∧
    excessLime { d with targetMg := t2 } = 0 ∧
    limeDemand_CaCO3 { d with targetMg := t1 } -
        limeDemand_CaCO3 { d with targetMg := t2 } =
      30 + (mgNCHToRemove { d with targetMg := t1 } -
        mgNCHToRemove { d with targetMg := t2 }) := by
  have h1' : ({ d with targetMg := t1 } : WaterQualityData).targetMg < 40 := h1
  have h2' : ¬({ d with targetMg := t2 } : WaterQualityData).targetMg < 40 :=
    not_lt.mpr h2
  have e4 : excessLime { d with targetMg := t1 } = 30 := by
    simp only [excessLime, if_pos h1']
  have e5 : excessLime { d with targetMg := t2 } = 0 := by
    simp only [excessLime, if_neg h2']
  refine ⟨?_, ?_, e4, e5, ?_⟩
  · show softenedPh { d with targetMg := t1 } = 10.6
    simp only [softenedPh, if_pos h1']
  · show softenedPh { d with targetMg := t2 } = 9.8
    simp only [softenedPh, if_neg h2']
  · have e1 : co2_as_CaCO3 { d with targetMg := t1 } =
        co2_as_CaCO3 { d with targetMg := t2 } := rfl
    have e2 : caCH { d with targetMg := t1 } =
        caCH { d with targetMg := t2 } := rfl
    have e3 : mgCH { d with targetMg := t1 } =
        mgCH { d with targetMg := t2 } := rfl
    rw [limeDemand_CaCO3, limeDemand_CaCO3, e1, e2, e3, e4, e5]
    ring

/-- Witness for the amended C3 at the spec's own boundary pair
39.9 / 40 on the default inputs. -/
theorem C3_threshold_witness :
    (39.9 : ℝ) < 40 ∧ (40 : ℝ) ≤ 40 ∧
    (calculateSoftening { sample with targetMg := (39.9 : ℝ) }).softenedPh = 10.6 ∧
    (calculateSoftening { sample with targetMg := (40 : ℝ) }).softenedPh = 9.8 :=
  ⟨by norm_num, by norm_num,
    (C3_threshold_amended sample 39.9 40 (by norm_num) (by norm_num)).1,
    (C3_threshold_amended sample 39.9 40 (by norm_num) (by norm_num)).2.1⟩

/-- A sample whose targets both exceed the raw CaCO3-equivalents:
calcium 0 and magnesium 0 but targetCa 100 and targetMg 50. -/
def unreachableSample : WaterQualityData := ⟨7, 0, 0, 0, 0, 0, 20, 100, 50⟩

/-- C4 counterexample: with both targets above the raw equivalents the
sludge output is strictly negative — the sludge terms are not clamped
to zero, so the claimed unconditional nonnegativity fails. -/
theorem C4_counterexample :
    (calculateSoftening unreachableSample).sludgeProduced < 0 := by
  show sludgeProduced unreachableSample < 0
  rw [sludgeProduced, sludgeCa, sludgeMg]
  norm_num [rawCa, rawMg, softenedCa, softenedMg, CA_TO_CACO3, MG_TO_CACO3,
    unreachableSample]

lemma rawCa_nonneg (d : WaterQualityData) (h : 0 ≤ d.calcium) : 0 ≤ rawCa d :=
  mul_nonneg h (by norm_num [CA_TO_CACO3])

lemma rawMg_nonneg (d : WaterQualityData) (h : 0 ≤ d.magnesium) : 0 ≤ rawMg d :=
  mul_nonneg h (by norm_num [MG_TO_CACO3])

lemma co2_nonneg (d : WaterQualityData) (halk : 0 ≤ d.alkalinity) :
    0 ≤ co2_as_CaCO3 d :=
  mul_nonneg halk (Real.rpow_nonneg (by norm_num) _)

lemma caCH_nonneg (d : WaterQualityData) (hca : 0 ≤ d.calcium)
    (hmg : 0 ≤ d.magnesium) (halk : 0 ≤ d.alkalinity) : 0 ≤ caCH d := by
  have h1 := rawCa_nonneg d hca
  have h2 := rawMg_nonneg d hmg
  have h3 : 0 ≤ rawHardness d := add_nonneg h1 h2
  exact le_min h1 (le_min h3 halk)

lemma excessLime_nonneg (d : WaterQualityData) : 0 ≤ excessLime d := by
  rw [excessLime]
  split <;> norm_num

lemma limeDemand_nonneg (d : WaterQualityData) (hca : 0 ≤ d.calcium)
    (hmg : 0 ≤ d.magnesium) (halk : 0 ≤ d.alkalinity) :
    0 ≤ limeDemand_CaCO3 d := by
  have h1 := co2_nonneg d halk
  have h2 := caCH_nonneg d hca hmg halk
  have h3 : (0 : ℝ) ≤ mgCH d := le_max_left 0 _
  have h4 : (0 : ℝ) ≤ mgNCHToRemove d := le_max_left 0 _
  have h5 := excessLime_nonneg d
  rw [limeDemand_CaCO3]
  linarith

lemma limeDose_nonneg (d : WaterQualityData) (hca : 0 ≤ d.calcium)
    (hmg : 0 ≤ d.magnesium) (halk : 0 ≤ d.alkalinity) : 0 ≤ limeDose d :=
  mul_nonneg
    (div_nonneg (limeDemand_nonneg d hca hmg halk) (by norm_num [CACO3_MW]))
    (by norm_num [CAOH2_MW])

lemma sodaAshDose_nonneg (d : WaterQualityData) : 0 ≤ sodaAshDose d :=
  mul_nonneg (div_nonneg (le_max_left 0 _) (by norm_num [CACO3_MW]))
    (by norm_num [NA2CO3_MW])

/-- C4 (amended): the clamping of subtraction-derived intermediates in
the dosage stage keeps both chemical doses nonnegative for any sample
with nonnegative calcium, magnesium and alkalinity, even when a target
exceeds its raw equivalent; but the sludge stage performs no clamping
and its output can go negative for unreachable targets. -/
theorem C4_doses_nonneg_amended (d : WaterQualityData)
    (hca : 0 ≤ d.calcium) (hmg : 0 ≤ d.magnesium) (halk : 0 ≤ d.alkalinity) :
    0 ≤ (calculateSoftening d).limeDose ∧
    0 ≤ (calculateSoftening d).sodaAshDose :=
  ⟨limeDose_nonneg d hca hmg halk, sodaAshDose_nonneg d⟩

/-- Witness for the amended C4 at a sample with unreachable targets. -/
theorem C4_doses_nonneg_witness :
    0 ≤ unreachableSample.calcium ∧ 0 ≤ unreachableSample.magnesium ∧
    0 ≤ unreachableSample.alkalinity ∧
    0 ≤ (calculateSoftening unreachableSample).limeDose ∧
    0 ≤ (calculateSoftening unreachableSample).sodaAshDose := by
  have h := C4_doses_nonneg_amended unreachableSample
    (by norm_num [unreachableSample]) (by norm_num [unreachableSample])
    (by norm_num [unreachableSample])
  exact ⟨by norm_num [unreachableSample], by norm_num [unreachableSample],
    by norm_num [unreachableSample], h.1, h.2⟩

/-- C6: CCPP is zero whenever the LSI is nonpositive; when the LSI is
positive and the finished alkalinity is positive, CCPP is positive and
equals finishedAlkalinity * (1 - 10 ^ (-LSI)). -/
theorem C6_ccpp_cases (d : WaterQualityData) :
    ((calculateSoftening d).lsi ≤ 0 → (calculateSoftening d).ccpp = 0) ∧
    (0 < (calculateSoftening d).lsi →
      0 < (calculateSoftening d).softenedAlkalinity →
      0 < (calculateSoftening d).ccpp ∧
      (calculateSoftening d).ccpp =
        (calculateSoftening d).softenedAlkalinity *
          (1 - (10 : ℝ) ^ (-(calculateSoftening d).lsi))) := by
  constructor
  · intro h
    show ccpp d = 0
    have h' : lsi d ≤ 0 := h
    rw [ccpp, if_neg (not_lt.mpr h')]
  · intro hl ha
    have hl' : 0 < lsi d := hl
    have ha' : 0 < softenedAlk d := ha
    have hlt : (10 : ℝ) ^ (-lsi d) < 1 :=
      Real.rpow_lt_one_of_one_lt_of_neg (by norm_num) (by linarith)
    constructor
    · show 0 < ccpp d
      rw [ccpp, if_pos hl']
      exact mul_pos ha' (by linarith)
    · show ccpp d = softenedAlk d * (1 - (10 : ℝ) ^ (-lsi d))
      rw [ccpp, if_pos hl']

/-- `log10 10 = 1`. -/
lemma logb_ten_ten : Real.logb 10 (10 : ℝ) = 1 :=
  Real.logb_self_eq_one (by norm_num)

/-- `log10 10000 = 4`. -/
lemma logb_ten_10000 : Real.logb 10 (10000 : ℝ) = 4 := by
  rw [show (10000 : ℝ) = 10 ^ (4 : ℕ) by norm_num, Real.logb_pow, logb_ten_ten]
  norm_num

/-- `log10 100 = 2`. -/
lemma logb_ten_100 : Real.logb 10 (100 : ℝ) = 2 := by
  rw [show (100 : ℝ) = 10 ^ (2 : ℕ) by norm_num, Real.logb_pow, logb_ten_ten]
  norm_num

/-- A sample engineered so that every stability-stage logarithm has an
exactly known value: TDS 10, finished calcium 10, finished alkalinity
100, temperature 10000 K, and a strictly positive LSI. -/
noncomputable def wsample : WaterQualityData := ⟨7, 0, 0, 50, 200 / 13, 0, 9726.85, 10, 40⟩

lemma wsample_softenedAlk : softenedAlk wsample = 100 := by
  norm_num [softenedAlk, sodaAshDemand_CaCO3, rawHardness, rawCa, rawMg,
    softenedHardness, softenedCa, softenedMg, CA_TO_CACO3, MG_TO_CACO3,
    max_def, wsample]

lemma wsample_lsi : lsi wsample = 21.03 := by
  have hT : TDS wsample = 10 := by norm_num [TDS, wsample]
  have htemp : wsample.temperature + 273.15 = 10000 := by norm_num [wsample]
  have hCa : softenedCa wsample = 10 := rfl
  have hPh : softenedPh wsample = 9.8 := by
    have h : ¬wsample.targetMg < 40 := by show ¬(40 : ℝ) < 40; norm_num
    simp only [softenedPh, if_neg h]
  rw [lsi, phs, lsiA, lsiB, lsiC, lsiD, hT, htemp, hCa, wsample_softenedAlk,
    hPh, logb_ten_ten, logb_ten_10000, logb_ten_100]
  norm_num

/-- Witness for C6 at a sample with positive LSI and positive finished
alkalinity. -/
theorem C6_ccpp_witness :
    0 < (calculateSoftening wsample).lsi ∧
    0 < (calculateSoftening wsample).softenedAlkalinity ∧
    0 < (calculateSoftening wsample).ccpp := by
  have hl : 0 < (calculateSoftening wsample).lsi := by
    show 0 < lsi wsample
    rw [wsample_lsi]
    norm_num
  have ha : 0 < (calculateSoftening wsample).softenedAlkalinity := by
    show 0 < softenedAlk wsample
    rw [wsample_softenedAlk]
    norm_num
  exact ⟨hl, ha, ((C6_ccpp_cases wsample).2 hl ha).1⟩

/-- C7: on a valid sample (all fields nonnegative, each target at most
its raw CaCO3-equivalent) the lime dose, soda ash dose and sludge are
all nonnegative. -/
theorem C7_valid_sample_nonneg (d : WaterQualityData)
    (hph : 0 ≤ d.ph) (hca : 0 ≤ d.calcium) (hmg : 0 ≤ d.magnesium)
    (halk : 0 ≤ d.alkalinity) (hcond : 0 ≤ d.conductivity)
    (hsul : 0 ≤ d.sulphate) (htca0 : 0 ≤ d.targetCa) (htmg0 : 0 ≤ d.targetMg)
    (htca : d.targetCa ≤ rawCa d) (htmg : d.targetMg ≤ rawMg d) :
    0 ≤ (calculateSoftening d).limeDose ∧
    0 ≤ (calculateSoftening d).sodaAshDose ∧
    0 ≤ (calculateSoftening d).sludgeProduced := by
  refine ⟨limeDose_nonneg d hca hmg halk, sodaAshDose_nonneg d, ?_⟩
  show 0 ≤ sludgeProduced d
  rw [sludgeProduced, sludgeCa, sludgeMg, softenedCa, softenedMg]
  have h2 : 0 ≤ (rawMg d - d.targetMg) * (58.3 / 100.08) :=
    mul_nonneg (by linarith) (by norm_num)
  linarith

/-- Witness for C7 at the default sample, which is valid. -/
theorem C7_valid_sample_witness :
    sample.targetCa ≤ rawCa sample ∧ sample.targetMg ≤ rawMg sample ∧
    0 ≤ (calculateSoftening sample).limeDose ∧
    0 ≤ (calculateSoftening sample).sodaAshDose ∧
    0 ≤ (calculateSoftening sample).sludgeProduced := by
  have htca : sample.targetCa ≤ rawCa sample := by
    rw [sample_rawCa]
    show (40 : ℝ) ≤ 199.76
    norm_num
  have htmg : sample.targetMg ≤ rawMg sample := by
    rw [sample_rawMg]
    show (10 : ℝ) ≤ 102.95
    norm_num
  have h := C7_valid_sample_nonneg sample (by norm_num [sample])
    (by norm_num [sample]) (by norm_num [sample]) (by norm_num [sample])
    (by norm_num [sample]) (by norm_num [sample]) (by norm_num [sample])
    (by norm_num [sample]) htca htmg
  exact ⟨htca, htmg, h.1, h.2.1, h.2.2⟩

/-- C8: the LSI equals finishedPh minus the saturation pH given by the
modified Langelier correlation, with TDS estimated as
conductivity * 0.65. -/
theorem C8_lsi_langelier_formula (d : WaterQualityData)
    (hcond : 0 < d.conductivity)
    (hca : 0 < (calculateSoftening d).softenedCa)
    (ht : -273.15 < d.temperature) :
    (calculateSoftening d).lsi =
      (calculateSoftening d).softenedPh -
        ((9.3 + (Real.logb 10 (d.conductivity * 0.65) - 1) / 10 +
            (-13.12 * Real.logb 10 (d.temperature + 273.15) + 34.55)) -
          ((Real.logb 10 (calculateSoftening d).softenedCa - 0.4) +
            Real.logb 10 (calculateSoftening d).softenedAlkalinity)) :=
  rfl

/-- Witness for C8 at the default sample. -/
theorem C8_lsi_formula_witness :
    0 < sample.conductivity ∧ 0 < (calculateSoftening sample).softenedCa ∧
    -273.15 < sample.temperature ∧
    (calculateSoftening sample).lsi =
      (calculateSoftening sample).softenedPh -
        ((9.3 + (Real.logb 10 (sample.conductivity * 0.65) - 1) / 10 +
            (-13.12 * Real.logb 10 (sample.temperature + 273.15) + 34.55)) -
          ((Real.logb 10 (calculateSoftening sample).softenedCa - 0.4) +
            Real.logb 10 (calculateSoftening sample).softenedAlkalinity)) := by
  have hca : 0 < (calculateSoftening sample).softenedCa := by
    show (0 : ℝ) < 40
    norm_num
  exact ⟨by norm_num [sample], hca, by norm_num [sample],
    C8_lsi_langelier_formula sample (by norm_num [sample]) hca
      (by norm_num [sample])⟩

end Softening
